import Mathlib

/-!
Verification of the provider gateways of the promptcraft-library backend:
the chat-completion gateway (`app/providers/openrouter_openai.py`,
function `call_chat_completions`) and the embedding gateway
(`app/embeddings/providers.py`, function `embed_texts`).

The provider payloads are loosely structured JSON handled with Python
dynamic typing, so we embed the relevant fragment of Python values and
their semantics (truthiness, subscripting, `in`, `.get`, `str`) and
translate the two functions over that model.  Exceptions raised by a
Python expression are modelled with `Except Unit` (the identity of the
exception is irrelevant wherever a bare `except` catches it).
-/

namespace PromptCraft

/-- A Python value of the shapes the gateways manipulate: `None`,
booleans, integers, strings, lists, and string-keyed dicts (provider
JSON only ever has string keys). -/
inductive PyVal where
  | none : PyVal
  | bool (b : Bool) : PyVal
  | int (n : Int) : PyVal
  | str (s : String) : PyVal
  | list (xs : List PyVal) : PyVal
  | dict (kvs : List (String × PyVal)) : PyVal

/-- Python truthiness: `None`, `False`, `0`, `""`, `[]`, and an empty
dict are falsy, everything else truthy. -/
def truthy : PyVal → Bool
  | .none => false
  | .bool b => b
  | .int n => n != 0
  | .str s => !(s.isEmpty)
  | .list xs => !xs.isEmpty
  | .dict kvs => !kvs.isEmpty

/-- Lookup of a string key in a dict body (first occurrence). -/
def dictLookup : List (String × PyVal) → String → Option PyVal
  | [], _ => Option.none
  | (k2, v) :: rest, k => if k2 = k then some v else dictLookup rest k

/-- `k in d` for a dict body. -/
def dictHasKey (kvs : List (String × PyVal)) (k : String) : Bool :=
  kvs.any (fun kv => kv.1 == k)

mutual

/-- Python `repr` restricted to our value fragment. -/
def pyRepr : PyVal → String
  | .none => "None"
  | .bool b => if b then "True" else "False"
  | .int n => toString n
  | .str s => "\x27" ++ s ++ "\x27"
  | .list xs => "[" ++ pyReprList xs ++ "]"
  | .dict kvs => "\x7b" ++ pyReprDict kvs ++ "\x7d"

/-- Comma-separated reprs of list elements. -/
def pyReprList : List PyVal → String
  | [] => ""
  | [x] => pyRepr x
  | x :: y :: rest => pyRepr x ++ ", " ++ pyReprList (y :: rest)

/-- Comma-separated reprs of dict entries. -/
def pyReprDict : List (String × PyVal) → String
  | [] => ""
  | [(k, v)] => "\x27" ++ k ++ "\x27: " ++ pyRepr v
  | (k, v) :: e :: rest =>
      "\x27" ++ k ++ "\x27: " ++ pyRepr v ++ ", " ++ pyReprDict (e :: rest)

end

/-- Python `str`: identity on strings, `repr` on the other shapes. -/
def pyStr : PyVal → String
  | .str s => s
  | v => pyRepr v

/-- `isinstance(v, dict)`. -/
def PyVal.isDict : PyVal → Bool
  | .dict _ => true
  | _ => false

/-- `isinstance(v, str)`. -/
def PyVal.isStr : PyVal → Bool
  | .str _ => true
  | _ => false

/-- `isinstance(v, list)`. -/
def PyVal.isList : PyVal → Bool
  | .list _ => true
  | _ => false

/-- `v[0]`: head of a list (IndexError when empty), first character of a
string, TypeError (modelled as `Except.error`) on dicts and scalars —
a string-keyed dict subscripted with `0` raises KeyError. -/
def pySubscript0 : PyVal → Except Unit PyVal
  | .list (x :: _) => .ok x
  | .list [] => .error ()
  | .str s => if s.isEmpty then .error () else .ok (.str (String.mk [s.front]))
  | _ => .error ()

/-- Whether `k` occurs in `s` as a substring (for Python `k in s`). -/
def containsSub (k s : String) : Bool :=
  (s.splitOn k).length != 1

/-- `k in v` for a string key `k`: key membership for dicts, substring
test for strings, element equality for lists, TypeError otherwise. -/
def pyContainsStr (k : String) : PyVal → Except Unit Bool
  | .dict kvs => .ok (dictHasKey kvs k)
  | .str s => .ok (containsSub k s)
  | .list xs => .ok (xs.any (fun x => match x with | .str t => t == k | _ => false))
  | _ => .error ()

/-- `v[k]` for a string key: dict lookup (KeyError when missing),
TypeError on every other shape. -/
def pySubscriptStr (v : PyVal) (k : String) : Except Unit PyVal :=
  match v with
  | .dict kvs =>
      match dictLookup kvs k with
      | some x => .ok x
      | Option.none => .error ()
  | _ => .error ()

/-- `v.get(k, dflt)`: defined on dicts, AttributeError on every other
shape. -/
def pyDictGet (v : PyVal) (k : String) (dflt : PyVal) : Except Unit PyVal :=
  match v with
  | .dict kvs => .ok ((dictLookup kvs k).getD dflt)
  | _ => .error ()

/-- The loop over `msg_content` when it is a list
(`openrouter_openai.py` lines 97-102): a chunk that is a dict with a
`text` key contributes `chunk["text"]` (whatever value that holds),
otherwise a chunk that is itself a string contributes itself, and any
other chunk is skipped. -/
def collectParts : List PyVal → List PyVal
  | [] => []
  | chunk :: rest =>
      match chunk with
      | .dict kvs =>
          match dictLookup kvs "text" with
          | some v => v :: collectParts rest
          | Option.none => collectParts rest
      | .str s => .str s :: collectParts rest
      | _ => collectParts rest

/-- If every part is a string, their concatenation; `Option.none`
when some part is not a string. -/
def allStrsConcat : List PyVal → Option String
  | [] => some ""
  | .str s :: rest => (allStrsConcat rest).map (fun t => s ++ t)
  | _ :: _ => Option.none

/-- Python `"".join(parts)`: concatenates string parts in order with no
separator, TypeError when any part is not a string. -/
def pyJoin (parts : List PyVal) : Except Unit PyVal :=
  match allStrsConcat parts with
  | some s => .ok (.str s)
  | Option.none => .error ()

/-- `openrouter_openai.py` lines 90-105: after
`isinstance(choice0["message"], dict)` succeeded with body `m`,
`msg_content = m.get("content")` is a plain string (used directly), a
list (join the collected parts), or anything else (coerced with
`str`). -/
def handleContent (m : List (String × PyVal)) : Except Unit PyVal :=
  match (dictLookup m "content").getD PyVal.none with
  | .str s => .ok (.str s)
  | .list chunks => pyJoin (collectParts chunks)
  | other => .ok (.str (pyStr other))

/-- The body of the `try` block of `openrouter_openai.py` lines 82-108,
over the serialized response `raw` (a dict, as produced by the SDK's
`to_dict`).  Yields the value the variable `text` holds at the end of
the block, or an error when some step raises. -/
def tryExtract (raw : List (String × PyVal)) : Except Unit PyVal :=
  match dictLookup raw "choices" with
  | Option.none => .ok (.str "")
  | some choices =>
      if truthy choices then
        match pySubscript0 choices with
        | .error e => .error e
        | .ok choice0 =>
            match pyContainsStr "message" choice0 with
            | .error e => .error e
            | .ok hasMsg =>
                if hasMsg then
                  match pySubscriptStr choice0 "message" with
                  | .error e => .error e
                  | .ok msgv =>
                      match msgv with
                      | .dict m => handleContent m
                      | _ => pyDictGet choice0 "text" (.str "")
                else
                  pyDictGet choice0 "text" (.str "")
      else
        .ok (.str "")

/-- The `text` field of the record returned by `call_chat_completions`:
the try-block value, or — when any extraction step raises — the
fallback `str(raw.get("choices", raw))` of line 111. -/
def extractText (raw : List (String × PyVal)) : PyVal :=
  match tryExtract raw with
  | .ok t => t
  | .error _ => .str (pyStr ((dictLookup raw "choices").getD (.dict raw)))

/-- `openrouter_openai.py` line 114:
`usage = raw.get("usage", \x7b\x7d) or raw.get("meta", \x7b\x7d).get("usage", \x7b\x7d) or \x7b\x7d`,
with Python `or` short-circuiting on truthiness; the inner `.get`
raises (uncaught) when a present `meta` field is not a dict. -/
def extractUsage (raw : List (String × PyVal)) : Except Unit PyVal :=
  let u1 := (dictLookup raw "usage").getD (.dict [])
  if truthy u1 then .ok u1
  else
    match pyDictGet ((dictLookup raw "meta").getD (.dict [])) "usage" (.dict []) with
    | .error e => .error e
    | .ok u2 => if truthy u2 then .ok u2 else .ok (.dict [])

/-- The provider-SDK exceptions named in the `except` clauses of both
gateways, plus a case for any other exception. -/
inductive SDKExc where
  | apiError (m : String) : SDKExc
  | rateLimitError (m : String) : SDKExc
  | apiTimeoutError (m : String) : SDKExc
  | internalServerError (m : String) : SDKExc
  | otherExc (m : String) : SDKExc

/-- The message carried by an exception. -/
def excMessage : SDKExc → String
  | .apiError m => m
  | .rateLimitError m => m
  | .apiTimeoutError m => m
  | .internalServerError m => m
  | .otherExc m => m

/-- `openrouter_openai.py` lines 71-74: the message of the
`ProviderError` raised for an exception from the `try` block — the
original message for the four named SDK exceptions, a generic prefixed
message for anything else. -/
def providerWrap : SDKExc → String
  | .apiError m => m
  | .rateLimitError m => m
  | .apiTimeoutError m => m
  | .internalServerError m => m
  | .otherExc m => "unexpected provider error: " ++ m

/-- `embeddings/providers.py` lines 48-53: the message of the
`EmbeddingError` raised for an exception from the `try` block. -/
def embedWrap : SDKExc → String
  | .apiError m => m
  | .rateLimitError m => m
  | .apiTimeoutError m => m
  | .internalServerError m => m
  | .otherExc m => "unexpected embedding error: " ++ m

/-- The normalized chat result: the `text` and `usage` fields of the
returned record (latency and the raw payload carry no policy). -/
structure ChatResult where
  text : PyVal
  usage : PyVal

/-- What `call_chat_completions` can raise: the typed `ProviderError`
from the `try`/`except`, or an uncaught exception from the
usage-extraction line (outside the `try`). -/
inductive ChatErr where
  | providerError (msg : String) : ChatErr
  | uncaught : ChatErr

/-- `call_chat_completions` after the request body is built, as a
function of the outcome of the SDK call (a serialized response dict, or
an exception): exceptions become `ProviderError` with the wrapped
message; on success `text` and `usage` are extracted from the raw
dict. -/
def call_chat_completions (outcome : Except SDKExc (List (String × PyVal))) :
    Except ChatErr ChatResult :=
  match outcome with
  | .error e => .error (.providerError (providerWrap e))
  | .ok raw =>
      match extractUsage raw with
      | .error _ => .error .uncaught
      | .ok u => .ok ⟨extractText raw, u⟩

/-- Python `dict.update`: existing keys keep their position and take
the new value, keys new to `base` are appended in `extra` order. -/
def dictUpdate (base extra : List (String × PyVal)) : List (String × PyVal) :=
  base.map (fun kv =>
    (kv.1, match dictLookup extra kv.1 with
           | some v => v
           | Option.none => kv.2))
  ++ extra.filter (fun kv => !(dictHasKey base kv.1))

/-- The arguments `call_chat_completions` passes to
`_client.chat.completions.create` (lines 62-70): `model` and `messages`
as declared, `max_tokens` and `temperature` read back from the merged
`body` dict, and `extra_body` forwarded as given. -/
structure SentArgs where
  model : String
  messages : PyVal
  maxTokens : PyVal
  temperature : PyVal
  extraBody : List (String × PyVal)

/-- `openrouter_openai.py` lines 48-54: the `body` dict as first built
from the request-declared fields — `max_tokens` is added only when the
argument is not `None`.  `temp` stands for the already-coerced
`float(temperature)` value. -/
def declaredBody (model : String) (messages : PyVal) (maxTokens : Option Int)
    (temp : PyVal) : List (String × PyVal) :=
  match maxTokens with
  | some m =>
      [("model", .str model), ("messages", messages), ("temperature", temp),
       ("max_tokens", .int m)]
  | Option.none =>
      [("model", .str model), ("messages", messages), ("temperature", temp)]

/-- `openrouter_openai.py` lines 47-70: build `body`, then
`body.update(extra_body)` when `extra_body` is truthy (non-empty), then
assemble the call arguments. -/
def buildSentArgs (model : String) (messages : PyVal) (maxTokens : Option Int)
    (temp : PyVal) (extraBody : List (String × PyVal)) : SentArgs :=
  let body1 := declaredBody model messages maxTokens temp
  let body := if extraBody.isEmpty then body1 else dictUpdate body1 extraBody
  { model := model
    messages := messages
    maxTokens := (dictLookup body "max_tokens").getD .none
    temperature := (dictLookup body "temperature").getD .none
    extraBody := extraBody }

/-- Whether an `Except` value is a success. -/
def exceptIsOk : Except Unit (List PyVal) → Bool
  | .ok _ => true
  | .error _ => false

/-- Whether an `Except` result with a string error is a success. -/
def exceptIsOkStr : Except String (List PyVal) → Bool
  | .ok _ => true
  | .error _ => false

/-- Message of the `NameError` raised when `embeddings/providers.py`
line 23 evaluates `BASE_URL` without it having been assigned (the
`if OPENROUTER_API_KEY:` block at lines 18-20 is the only assignment,
and it has no `else` branch). -/
def nameErrorBaseUrl : String :=
  "NameError: name \x27BASE_URL\x27 is not defined"

/-- Import-time initialization of `app/embeddings/providers.py`
(lines 14-25) as a function of the `OPENROUTER_API_KEY` environment
value (`Option.none` when unset).  When the key is truthy, `BASE_URL`
and `API_KEY` are assigned and the client is built from them; when it
is unset or empty (falsy), neither name is assigned and the
module-level expression `BASE_URL or ...` raises `NameError`, so
importing the module fails. -/
def embedModuleInit (key : Option String) : Except String (String × String) :=
  match key with
  | some s =>
      if s.isEmpty then .error nameErrorBaseUrl
      else .ok ("https://openrouter.ai/api/v1", s)
  | Option.none => .error nameErrorBaseUrl

/-- Message of the `NameError` raised when `embeddings/providers.py`
line 47 evaluates the argument `timeout=DEFAULT_TIMEOUT`:
`DEFAULT_TIMEOUT` is neither defined nor imported anywhere in that
module. -/
def defaultTimeoutNameMsg : String :=
  "name \x27DEFAULT_TIMEOUT\x27 is not defined"

/-- The `try`/`except` of `embeddings/providers.py` lines 45-53 as a
function of the outcome of the guarded block: an exception becomes an
`EmbeddingError` with the wrapped message. -/
def embedTry (outcome : Except SDKExc PyVal) : Except String PyVal :=
  match outcome with
  | .ok r => .ok r
  | .error e => .error (embedWrap e)

/-- One call to `embed_texts`: the outcome delivered to the caller
(`Except.error` is an `EmbeddingError` message) and whether an HTTP
request was issued. -/
structure EmbedCall where
  result : Except String (List PyVal)
  networkAttempted : Bool

/-- `embed_texts` (`embeddings/providers.py` lines 31-69) as a function
of whether `OPENROUTER_API_KEY` is set (truthy) and of the input texts.
`resp` is the `data` list the provider would return; it is never
consulted, because evaluating the call's arguments at line 47 raises
`NameError` on the undefined `DEFAULT_TIMEOUT` before the HTTP request
is issued, and the generic handler wraps that into an
`EmbeddingError`.  The key check precedes the empty-input check, which
precedes the `try` block. -/
def embed_texts (keyConfigured : Bool) (texts : List String)
    (resp : List PyVal) : EmbedCall :=
  if !keyConfigured then
    ⟨.error "OPENROUTER_API_KEY not set in env", false⟩
  else if texts.isEmpty then
    ⟨.ok [], false⟩
  else
    let _ := resp
    ⟨.error (embedWrap (.otherExc defaultTimeoutNameMsg)), false⟩

/-- The body of the extraction loop of `embeddings/providers.py`
lines 58-63 for one `item` of `data`: `item.get(...)` raises
AttributeError (uncaught — the loop is outside the `try`) when `item`
is not a dict; on a dict, the first truthy value among the fields
`embedding`, `vector`, `embedding_vector` is taken (else `[]`), and
only when that is falsy and a `values` key exists is `item.get("values")`
used. -/
def vecOfItem : PyVal → Except Unit PyVal
  | .dict kvs =>
      let a1 := (dictLookup kvs "embedding").getD .none
      let a2 := (dictLookup kvs "vector").getD .none
      let a3 := (dictLookup kvs "embedding_vector").getD .none
      let vec :=
        if truthy a1 then a1
        else if truthy a2 then a2
        else if truthy a3 then a3
        else .list []
      if !truthy vec && dictHasKey kvs "values" then
        .ok ((dictLookup kvs "values").getD .none)
      else
        .ok vec
  | _ => .error ()

/-- The extraction loop over the whole `data` list: builds one vector
per item, aborting with the uncaught error at the first non-dict
item. -/
def extractVectors : List PyVal → Except Unit (List PyVal)
  | [] => .ok []
  | item :: rest =>
      match vecOfItem item with
      | .error e => .error e
      | .ok v =>
          match extractVectors rest with
          | .error e => .error e
          | .ok vs => .ok (v :: vs)

/-- Spec-side formulation (for comparison with `vecOfItem`): for one
key/value record, the first non-empty (truthy) value among
`embedding`, `vector`, `embedding_vector`; else the `values` field when
present; else the empty vector. -/
def vecOfRecordSpec (kvs : List (String × PyVal)) : PyVal :=
  let e := (dictLookup kvs "embedding").getD .none
  if truthy e then e
  else
    let v := (dictLookup kvs "vector").getD .none
    if truthy v then v
    else
      let ev := (dictLookup kvs "embedding_vector").getD .none
      if truthy ev then ev
      else
        match dictLookup kvs "values" with
        | some w => w
        | Option.none => .list []

/-- The sanity check of `embeddings/providers.py` lines 65-69: whether
a warning is logged, and the value returned — always the extracted
vectors, unmodified. -/
def embedSanity (vectors : List PyVal) (texts : List String) :
    Bool × List PyVal :=
  (vectors.length != texts.length, vectors)

/-- Spec-side formulation of the per-chunk contribution when
`message.content` is a list: blocks that are dicts with a string `text`
field contribute that field, blocks that are strings contribute
themselves, everything else contributes nothing; concatenated with no
separator, in list order. -/
def concatBlocks : List PyVal → String
  | [] => ""
  | .str s :: rest => s ++ concatBlocks rest
  | .dict kvs :: rest =>
      (match dictLookup kvs "text" with
        | some (.str t) => t
        | some _ => ""
        | Option.none => "") ++ concatBlocks rest
  | _ :: rest => concatBlocks rest

/-- A content block is well-formed when, if it is a dict with a `text`
key, that field holds a string.  (A non-string `text` field would make
`"".join` raise, sending extraction to the stringified fallback.) -/
def blockTextOk : PyVal → Bool
  | .dict kvs =>
      match dictLookup kvs "text" with
      | some v => v.isStr
      | Option.none => true
  | _ => true

/-! ## Helper lemmas -/

theorem dictHasKey_eq_isSome (kvs : List (String × PyVal)) (k : String) :
    dictHasKey kvs k = (dictLookup kvs k).isSome := by
  induction kvs with
  | nil => rfl
  | cons kv rest ih =>
      obtain ⟨k2, v⟩ := kv
      by_cases h : k2 = k
      · subst h
        simp [dictHasKey, dictLookup]
      · have hb : (k2 == k) = false := beq_eq_false_iff_ne.mpr h
        simp [dictHasKey, dictLookup, h, hb] at ih ⊢
        exact ih

theorem dictLookup_append (l1 l2 : List (String × PyVal)) (k : String) :
    dictLookup (l1 ++ l2) k =
      (match dictLookup l1 k with
        | some v => some v
        | Option.none => dictLookup l2 k) := by
  induction l1 with
  | nil => rfl
  | cons kv rest ih =>
      obtain ⟨k2, v⟩ := kv
      by_cases h : k2 = k
      · subst h
        simp [dictLookup]
      · simp [dictLookup, h]
        exact ih

/-! ## C1, C9, C10 — embedding gateway control flow -/

/-- C1: the claim says that with no resolvable credential each gateway
delivers its typed error and no code path — module initialization
included — raises a raw, untyped exception.  The code violates this:
with `OPENROUTER_API_KEY` unset (or empty), `BASE_URL` is never
assigned and importing `app/embeddings/providers.py` raises a raw
`NameError` at module level, so `embed_texts` (whose own typed
`EmbeddingError` check would otherwise fire) is never reachable in that
configuration. -/
theorem c1_no_key_module_init_raises_nameerror :
    embedModuleInit Option.none = Except.error nameErrorBaseUrl
    ∧ embedModuleInit (some "") = Except.error nameErrorBaseUrl
    ∧ (∀ ts r, (embed_texts false ts r).result =
        Except.error "OPENROUTER_API_KEY not set in env") := by
  refine ⟨rfl, rfl, ?_⟩
  intro ts r
  rfl

/-- C2: every exception from the guarded provider call is re-raised as
the gateway's typed error (`ProviderError` for chat, `EmbeddingError`
for embeddings), with the original exception's message contained in the
typed error's message (it is a suffix, after a possibly-empty prefix);
no SDK exception type escapes the `try`. -/
theorem c2_exception_wrapping (e : SDKExc) :
    call_chat_completions (Except.error e)
      = Except.error (ChatErr.providerError (providerWrap e))
    ∧ embedTry (Except.error e) = Except.error (embedWrap e)
    ∧ (∃ p, providerWrap e = p ++ excMessage e)
    ∧ (∃ q, embedWrap e = q ++ excMessage e) := by
  refine ⟨rfl, rfl, ?_, ?_⟩ <;>
    cases e with
    | apiError m => exact ⟨"", rfl⟩
    | rateLimitError m => exact ⟨"", rfl⟩
    | apiTimeoutError m => exact ⟨"", rfl⟩
    | internalServerError m => exact ⟨"", rfl⟩
    | otherExc m => first
        | exact ⟨"unexpected provider error: ", rfl⟩
        | exact ⟨"unexpected embedding error: ", rfl⟩

/-- C3: the claim says the `text` field is always a string.  The code
violates it: when the first choice has no `message` object, line 108
returns `choice0.get("text", "")` unchanged, so a response
`\x7b"choices": [\x7b"text": None\x7d]\x7d` yields `text = None` — not
a string — contradicting the function's own docstring
(`"text": <str>`) and the spec invariant. -/
theorem c3_text_can_be_none :
    extractText [("choices", PyVal.list [PyVal.dict [("text", PyVal.none)]])]
      = PyVal.none
    ∧ PyVal.isStr
        (extractText [("choices", PyVal.list [PyVal.dict [("text", PyVal.none)]])])
      = false := ⟨rfl, rfl⟩

/-- C9: an empty input-text list short-circuits to an empty result with
no network call (stated for the key-configured case, the only one in
which the module is importable at all, see
`c1_no_key_module_init_raises_nameerror`). -/
theorem c9_empty_input_short_circuits (resp : List PyVal) :
    embed_texts true [] resp = ⟨Except.ok [], false⟩ := rfl

/-- C10: with the OpenRouter credential configured, every call of
`embed_texts` on a non-empty batch raises `EmbeddingError` with message
prefixed `unexpected embedding error:`, and no network request is
issued: evaluating `timeout=DEFAULT_TIMEOUT` raises `NameError` (the
name is never defined or imported in the module), which the generic
handler wraps. -/
theorem c10_default_timeout_nameerror (ts : List String) (resp : List PyVal)
    (h : ts ≠ []) :
    (embed_texts true ts resp).result
      = Except.error ("unexpected embedding error: " ++ defaultTimeoutNameMsg)
    ∧ (embed_texts true ts resp).networkAttempted = false := by
  cases ts with
  | nil => exact absurd rfl h
  | cons t ts => exact ⟨rfl, rfl⟩

/-- Witness for `c10_default_timeout_nameerror` at the batch `["x"]`. -/
theorem c10_witness :
    (embed_texts true ["x"] []).result
      = Except.error ("unexpected embedding error: " ++ defaultTimeoutNameMsg)
    ∧ (embed_texts true ["x"] []).networkAttempted = false :=
  c10_default_timeout_nameerror ["x"] [] (List.cons_ne_nil _ _)

/-- C7: the claim (and the sanity check of lines 65-69, which only logs
on a count mismatch and returns the vectors unmodified) is the clear
intent, but the code never gets there: a 3-text batch raises
`EmbeddingError` from the undefined `DEFAULT_TIMEOUT` before the
request is even issued, instead of returning the 2 extracted
vectors. -/
theorem c7_mismatch_warning_only :
    (embed_texts true ["a", "b", "c"]
        [PyVal.dict [("embedding", PyVal.list [PyVal.int 1])],
         PyVal.dict [("embedding", PyVal.list [PyVal.int 2])]]).result
      = Except.error ("unexpected embedding error: " ++ defaultTimeoutNameMsg)
    ∧ (∀ vs ts, (embedSanity vs ts).2 = vs)
    ∧ (∀ vs ts, ((embedSanity vs ts).1 = true ↔ vs.length ≠ ts.length)) := by
  refine ⟨rfl, fun vs ts => rfl, fun vs ts => ?_⟩
  simp [embedSanity]

/-- C6 counterexample: against the claim, `embed_texts` on a one-text
batch whose provider response holds exactly one key/value record with
an `embedding` field does not return one vector per record — it fails
(with the wrapped `NameError` on `DEFAULT_TIMEOUT`) and returns no
vectors at all. -/
theorem c6_counterexample :
    (embed_texts true ["a"]
        [PyVal.dict [("embedding", PyVal.list [PyVal.int 1])]]).result
      = Except.error ("unexpected embedding error: " ++ defaultTimeoutNameMsg)
    ∧ exceptIsOkStr (embed_texts true ["a"]
        [PyVal.dict [("embedding", PyVal.list [PyVal.int 1])]]).result
      = false := ⟨rfl, rfl⟩

/-- C8 counterexample: against the claim, a present top-level `usage`
field is not always returned: when it is present but falsy (the empty
mapping), the `or` chain of line 114 falls through to `meta.usage`.
The claimed value is the present `usage` (`\x7b\x7d`, falsy); the code
returns the nested non-empty mapping instead. -/
theorem c8_counterexample :
    extractUsage
        [("usage", PyVal.dict []),
         ("meta", PyVal.dict [("usage", PyVal.dict [("total_tokens", PyVal.int 5)])])]
      = Except.ok (PyVal.dict [("total_tokens", PyVal.int 5)])
    ∧ truthy (PyVal.dict [("total_tokens", PyVal.int 5)]) = true
    ∧ truthy (PyVal.dict []) = false := ⟨rfl, rfl, rfl⟩

/-- C5 counterexample: against the claim, a colliding `extra_body`
field wins over the request-declared one in what is sent: with declared
temperature `0` and `extra_body = \x7b"temperature": "hot"\x7d`, the
`temperature` argument passed to the provider call is the extra-body
string, not the declared number (line 66 reads it back from `body`
after `body.update(extra_body)`). -/
theorem c5_counterexample :
    (buildSentArgs "m" (PyVal.list []) Option.none (PyVal.int 0)
        [("temperature", PyVal.str "hot")]).temperature = PyVal.str "hot"
    ∧ PyVal.isStr ((buildSentArgs "m" (PyVal.list []) Option.none (PyVal.int 0)
        [("temperature", PyVal.str "hot")]).temperature) = true
    ∧ PyVal.isStr (PyVal.int 0) = false := ⟨rfl, rfl, rfl⟩

/-! ## C6 — embedding extraction loop -/

theorem vecOfItem_dict (kvs : List (String × PyVal)) :
    vecOfItem (PyVal.dict kvs) = Except.ok (vecOfRecordSpec kvs) := by
  unfold vecOfItem vecOfRecordSpec
  by_cases h1 : truthy ((dictLookup kvs "embedding").getD .none) = true
  · simp [h1]
  · rw [Bool.not_eq_true] at h1
    by_cases h2 : truthy ((dictLookup kvs "vector").getD .none) = true
    · simp [h1, h2]
    · rw [Bool.not_eq_true] at h2
      by_cases h3 : truthy ((dictLookup kvs "embedding_vector").getD .none) = true
      · simp [h1, h2, h3]
      · rw [Bool.not_eq_true] at h3
        simp only [h1, h2, h3, Bool.false_eq_true, if_false]
        cases h4 : dictLookup kvs "values" with
        | none =>
            have : dictHasKey kvs "values" = false := by
              rw [dictHasKey_eq_isSome, h4]
              rfl
            simp [truthy, this]
        | some w =>
            have : dictHasKey kvs "values" = true := by
              rw [dictHasKey_eq_isSome, h4]
              rfl
            simp [truthy, this, h4]

theorem extractVectors_records (data : List (List (String × PyVal))) :
    extractVectors (data.map PyVal.dict)
      = Except.ok (data.map vecOfRecordSpec) := by
  induction data with
  | nil => rfl
  | cons kvs rest ih =>
      simp [extractVectors, vecOfItem_dict, ih]

/-- C6, amended: with a key configured and a non-empty batch,
`embed_texts` always raises `EmbeddingError` (wrapped `NameError` on
the undefined `DEFAULT_TIMEOUT`) before the extraction runs.  The
extraction loop itself, applied to a `data` list all of whose items are
key/value records, builds exactly one vector per record — the first
truthy value among `embedding`, `vector`, `embedding_vector`, else the
`values` field when present, else `[]` — preserving count and
position; but an item that is not a key/value record raises an
uncaught `AttributeError` (the loop is outside the `try`) rather than
being skipped. -/
theorem c6_extraction_per_record :
    (∀ ts r, ts ≠ [] → (embed_texts true ts r).result
        = Except.error ("unexpected embedding error: " ++ defaultTimeoutNameMsg))
    ∧ (∀ data : List (List (String × PyVal)),
        extractVectors (data.map PyVal.dict)
          = Except.ok (data.map vecOfRecordSpec)
        ∧ (data.map vecOfRecordSpec).length = (data.map PyVal.dict).length)
    ∧ extractVectors [PyVal.int 5] = Except.error ()
    ∧ vecOfRecordSpec [] = PyVal.list [] := by
  refine ⟨?_, ?_, rfl, rfl⟩
  · intro ts r h
    cases ts with
    | nil => exact absurd rfl h
    | cons t ts => rfl
  · intro data
    exact ⟨extractVectors_records data, by simp⟩

/-- Witness for `c6_extraction_per_record`: a one-record `data` list
yields exactly its one vector, and `embed_texts` on the batch `["t"]`
delivers the wrapped `NameError`. -/
theorem c6_witness :
    (embed_texts true ["t"] []).result
      = Except.error ("unexpected embedding error: " ++ defaultTimeoutNameMsg)
    ∧ extractVectors [PyVal.dict [("vector", PyVal.list [PyVal.int 2])]]
      = Except.ok [PyVal.list [PyVal.int 2]] := by
  refine ⟨c6_extraction_per_record.1 ["t"] [] (List.cons_ne_nil _ _), ?_⟩
  have h := (c6_extraction_per_record.2.1 [[("vector", PyVal.list [PyVal.int 2])]]).1
  simpa using h

/-! ## C4 — chat text extraction from `message.content` -/

theorem tryExtract_message (raw c0 m : List (String × PyVal)) (rest : List PyVal)
    (hch : dictLookup raw "choices" = some (PyVal.list (PyVal.dict c0 :: rest)))
    (hmsg : dictLookup c0 "message" = some (PyVal.dict m)) :
    tryExtract raw = handleContent m := by
  unfold tryExtract
  rw [hch]
  have ht : truthy (PyVal.list (PyVal.dict c0 :: rest)) = true := by
    simp [truthy]
  have hc : pyContainsStr "message" (PyVal.dict c0) = Except.ok true := by
    show Except.ok (dictHasKey c0 "message") = Except.ok true
    rw [dictHasKey_eq_isSome, hmsg]
    rfl
  have hs : pySubscriptStr (PyVal.dict c0) "message" = Except.ok (PyVal.dict m) := by
    show (match dictLookup c0 "message" with
          | some x => Except.ok x
          | Option.none => Except.error ()) = Except.ok (PyVal.dict m)
    rw [hmsg]
  simp [pySubscript0, ht, hc, hs]

theorem collectParts_allStrs (chunks : List PyVal)
    (h : ∀ c ∈ chunks, blockTextOk c = true) :
    allStrsConcat (collectParts chunks) = some (concatBlocks chunks) := by
  induction chunks with
  | nil => rfl
  | cons c rest ih =>
      have hrest := ih (fun x hx => h x (List.mem_cons_of_mem c hx))
      cases c with
      | dict kvs =>
          cases hl : dictLookup kvs "text" with
          | none => simp [collectParts, concatBlocks, hl, hrest]
          | some v =>
              have hv : v.isStr = true := by
                have hc2 : blockTextOk (PyVal.dict kvs) = true :=
                  h _ (List.mem_cons_self _ _)
                simp only [blockTextOk, hl] at hc2
                exact hc2
              cases v with
              | str t => simp [collectParts, concatBlocks, hl, allStrsConcat, hrest]
              | none => exact absurd hv (by simp [PyVal.isStr])
              | bool b => exact absurd hv (by simp [PyVal.isStr])
              | int n => exact absurd hv (by simp [PyVal.isStr])
              | list xs => exact absurd hv (by simp [PyVal.isStr])
              | dict kvs2 => exact absurd hv (by simp [PyVal.isStr])
      | str s => simp [collectParts, concatBlocks, allStrsConcat, hrest]
      | none => simp [collectParts, concatBlocks, hrest]
      | bool b => simp [collectParts, concatBlocks, hrest]
      | int n => simp [collectParts, concatBlocks, hrest]
      | list xs => simp [collectParts, concatBlocks, hrest]

/-- C4: for a response whose first choice carries a `message` object,
the `text` extraction follows the content shape: a plain string is used
directly; a list of blocks is concatenated, with no separator and in
list order, from the blocks that are strings or the `text` fields of
the blocks that are mappings with a (string-valued) `text` field; any
other shape (a missing `content` included) is coerced to its string
representation. -/
theorem c4_content_shapes (raw c0 m : List (String × PyVal)) (rest : List PyVal)
    (hch : dictLookup raw "choices" = some (PyVal.list (PyVal.dict c0 :: rest)))
    (hmsg : dictLookup c0 "message" = some (PyVal.dict m)) :
    (∀ s, dictLookup m "content" = some (PyVal.str s) →
      extractText raw = PyVal.str s)
    ∧ (∀ chunks, dictLookup m "content" = some (PyVal.list chunks) →
        (∀ c ∈ chunks, blockTextOk c = true) →
        extractText raw = PyVal.str (concatBlocks chunks))
    ∧ (∀ v, dictLookup m "content" = some v →
        v.isStr = false → v.isList = false →
        extractText raw = PyVal.str (pyStr v))
    ∧ (dictLookup m "content" = Option.none →
        extractText raw = PyVal.str (pyStr PyVal.none)) := by
  have hmain := tryExtract_message raw c0 m rest hch hmsg
  refine ⟨?_, ?_, ?_, ?_⟩
  · intro s hs
    unfold extractText
    rw [hmain]
    unfold handleContent
    rw [hs]
    rfl
  · intro chunks hcl hok
    have hj : pyJoin (collectParts chunks)
        = Except.ok (PyVal.str (concatBlocks chunks)) := by
      unfold pyJoin
      rw [collectParts_allStrs chunks hok]
    unfold extractText
    rw [hmain]
    unfold handleContent
    rw [hcl]
    simp [hj]
  · intro v hv hvs hvl
    unfold extractText
    rw [hmain]
    unfold handleContent
    rw [hv]
    cases v with
    | str s => exact absurd hvs (by simp [PyVal.isStr])
    | list xs => exact absurd hvl (by simp [PyVal.isList])
    | none => rfl
    | bool b => rfl
    | int n => rfl
    | dict kvs => rfl
  · intro hnone
    unfold extractText
    rw [hmain]
    unfold handleContent
    rw [hnone]
    rfl

/-- Witness for `c4_content_shapes`: the response whose first choice
has `message.content = [\x7b"text": "a"\x7d, \x7b"text": "b"\x7d]`
yields `text = "ab"`. -/
theorem c4_witness :
    extractText
        [("choices", PyVal.list [PyVal.dict [("message", PyVal.dict
          [("content", PyVal.list
            [PyVal.dict [("text", PyVal.str "a")],
             PyVal.dict [("text", PyVal.str "b")]])])]])]
      = PyVal.str "ab" := by
  have h := (c4_content_shapes
      [("choices", PyVal.list [PyVal.dict [("message", PyVal.dict
        [("content", PyVal.list
          [PyVal.dict [("text", PyVal.str "a")],
           PyVal.dict [("text", PyVal.str "b")]])])]])]
      [("message", PyVal.dict
        [("content", PyVal.list
          [PyVal.dict [("text", PyVal.str "a")],
           PyVal.dict [("text", PyVal.str "b")]])])]
      [("content", PyVal.list
        [PyVal.dict [("text", PyVal.str "a")],
         PyVal.dict [("text", PyVal.str "b")]])]
      [] rfl rfl).2.1
      [PyVal.dict [("text", PyVal.str "a")], PyVal.dict [("text", PyVal.str "b")]]
      rfl (by decide)
  simpa using h

/-! ## C5 — extra_body merge precedence -/

theorem dictLookup_mapUpdate (base extra : List (String × PyVal)) (k : String) :
    dictLookup (base.map (fun kv =>
      (kv.1, match dictLookup extra kv.1 with
             | some v => v
             | Option.none => kv.2))) k
    = (match dictLookup base k with
        | some w => some (match dictLookup extra k with
                          | some v => v
                          | Option.none => w)
        | Option.none => Option.none) := by
  induction base with
  | nil => rfl
  | cons kv rest ih =>
      obtain ⟨k2, w⟩ := kv
      by_cases h : k2 = k
      · subst h
        simp [dictLookup]
      · simp [dictLookup, h, ih]

theorem dictLookup_filter_keep (extra : List (String × PyVal))
    (p : String × PyVal → Bool) (k : String) (w : PyVal)
    (h : dictLookup extra k = some w) (hp : ∀ v, p (k, v) = true) :
    dictLookup (extra.filter p) k = some w := by
  induction extra with
  | nil => simp [dictLookup] at h
  | cons kv rest ih =>
      obtain ⟨k2, u⟩ := kv
      by_cases hk : k2 = k
      · subst hk
        rw [dictLookup, if_pos rfl] at h
        rw [List.filter_cons, if_pos (hp u), dictLookup, if_pos rfl]
        exact h
      · rw [dictLookup, if_neg hk] at h
        rw [List.filter_cons]
        by_cases hkeep : p (k2, u) = true
        · rw [if_pos hkeep, dictLookup, if_neg hk]
          exact ih h
        · rw [if_neg hkeep]
          exact ih h

theorem declaredBody_temperature (model : String) (messages : PyVal)
    (mt : Option Int) (temp : PyVal) :
    dictLookup (declaredBody model messages mt temp) "temperature" = some temp := by
  cases mt <;> rfl

theorem declaredBody_maxTokens_none (model : String) (messages : PyVal)
    (temp : PyVal) :
    dictLookup (declaredBody model messages Option.none temp) "max_tokens"
      = Option.none := rfl

/-- C5, amended: `extra_body` is merged into the outgoing request body,
but on a key collision the `extra_body` value — not the
request-declared one — is what reaches the provider call for
`temperature` and `max_tokens` (lines 65-66 read them back from `body`
after `body.update(extra_body)`); `model` and `messages` are passed as
declared, and the whole `extra_body` is forwarded unchanged besides. -/
theorem c5_extra_body_precedence (model : String) (messages : PyVal)
    (mt : Option Int) (temp : PyVal) (eb : List (String × PyVal)) :
    (buildSentArgs model messages mt temp eb).model = model
    ∧ (buildSentArgs model messages mt temp eb).messages = messages
    ∧ (buildSentArgs model messages mt temp eb).extraBody = eb
    ∧ (∀ v, dictLookup eb "temperature" = some v →
        (buildSentArgs model messages mt temp eb).temperature = v)
    ∧ (dictLookup eb "temperature" = Option.none →
        (buildSentArgs model messages mt temp eb).temperature = temp)
    ∧ (∀ w, dictLookup eb "max_tokens" = some w →
        (buildSentArgs model messages mt temp eb).maxTokens = w) := by
  refine ⟨rfl, rfl, rfl, ?_, ?_, ?_⟩
  · intro v hv
    cases eb with
    | nil => simp [dictLookup] at hv
    | cons kv tl =>
        have hb : (buildSentArgs model messages mt temp (kv :: tl)).temperature
            = (dictLookup (dictUpdate (declaredBody model messages mt temp)
                (kv :: tl)) "temperature").getD .none := rfl
        rw [hb, dictUpdate, dictLookup_append, dictLookup_mapUpdate,
          declaredBody_temperature, hv]
        rfl
  · intro hv
    cases eb with
    | nil =>
        have hb : (buildSentArgs model messages mt temp []).temperature
            = (dictLookup (declaredBody model messages mt temp)
                "temperature").getD .none := rfl
        rw [hb, declaredBody_temperature]
        rfl
    | cons kv tl =>
        have hb : (buildSentArgs model messages mt temp (kv :: tl)).temperature
            = (dictLookup (dictUpdate (declaredBody model messages mt temp)
                (kv :: tl)) "temperature").getD .none := rfl
        rw [hb, dictUpdate, dictLookup_append, dictLookup_mapUpdate,
          declaredBody_temperature, hv]
        rfl
  · intro w hw
    cases eb with
    | nil => simp [dictLookup] at hw
    | cons kv tl =>
        have hb : (buildSentArgs model messages mt temp (kv :: tl)).maxTokens
            = (dictLookup (dictUpdate (declaredBody model messages mt temp)
                (kv :: tl)) "max_tokens").getD .none := rfl
        rw [hb, dictUpdate, dictLookup_append, dictLookup_mapUpdate]
        cases mt with
        | some m =>
            rw [show dictLookup (declaredBody model messages (some m) temp)
                "max_tokens" = some (PyVal.int m) from rfl, hw]
            rfl
        | none =>
            rw [declaredBody_maxTokens_none]
            rw [dictLookup_filter_keep (kv :: tl) _ "max_tokens" w hw
              (fun v => by
                rw [show dictHasKey (declaredBody model messages Option.none temp)
                  "max_tokens" = false from rfl]
                rfl)]
            rfl

/-- Witness for `c5_extra_body_precedence`: with declared temperature
`0`, no declared `max_tokens`, and
`extra_body = \x7b"temperature": "hot", "max_tokens": 5\x7d`, the sent
temperature is `"hot"`, the sent `max_tokens` is `5`, and the model is
the declared one. -/
theorem c5_witness :
    (buildSentArgs "m" (PyVal.list []) Option.none (PyVal.int 0)
        [("temperature", PyVal.str "hot"), ("max_tokens", PyVal.int 5)]).temperature
      = PyVal.str "hot"
    ∧ (buildSentArgs "m" (PyVal.list []) Option.none (PyVal.int 0)
        [("temperature", PyVal.str "hot"), ("max_tokens", PyVal.int 5)]).maxTokens
      = PyVal.int 5
    ∧ (buildSentArgs "m" (PyVal.list []) Option.none (PyVal.int 0)
        [("temperature", PyVal.str "hot"), ("max_tokens", PyVal.int 5)]).model
      = "m" := by
  refine ⟨?_, ?_, ?_⟩
  · exact (c5_extra_body_precedence "m" (PyVal.list []) Option.none (PyVal.int 0)
      [("temperature", PyVal.str "hot"), ("max_tokens", PyVal.int 5)]).2.2.2.1
      (PyVal.str "hot") rfl
  · exact (c5_extra_body_precedence "m" (PyVal.list []) Option.none (PyVal.int 0)
      [("temperature", PyVal.str "hot"), ("max_tokens", PyVal.int 5)]).2.2.2.2.2
      (PyVal.int 5) rfl
  · exact (c5_extra_body_precedence "m" (PyVal.list []) Option.none (PyVal.int 0)
      [("temperature", PyVal.str "hot"), ("max_tokens", PyVal.int 5)]).1

/-! ## C8 — usage extraction -/

/-- C8, amended: `usage` equals the top-level `usage` field when that
field is present AND truthy (non-empty); else the nested `meta.usage`
value when truthy (with `meta` defaulting to an empty mapping); else
the empty mapping.  Absence of both fields yields the empty mapping
with no error. -/
theorem c8_usage_truthy_precedence (raw : List (String × PyVal)) :
    (∀ u, dictLookup raw "usage" = some u → truthy u = true →
      extractUsage raw = Except.ok u)
    ∧ (∀ mkvs, truthy ((dictLookup raw "usage").getD (PyVal.dict [])) = false →
        (dictLookup raw "meta").getD (PyVal.dict []) = PyVal.dict mkvs →
        extractUsage raw = Except.ok
          (if truthy ((dictLookup mkvs "usage").getD (PyVal.dict [])) = true
            then (dictLookup mkvs "usage").getD (PyVal.dict [])
            else PyVal.dict []))
    ∧ (dictLookup raw "usage" = Option.none → dictLookup raw "meta" = Option.none →
        extractUsage raw = Except.ok (PyVal.dict [])) := by
  refine ⟨?_, ?_, ?_⟩
  · intro u hu ht
    unfold extractUsage
    rw [hu]
    simp [ht]
  · intro mkvs hfalse hmeta
    unfold extractUsage
    rw [if_neg (by rw [hfalse]; exact Bool.false_ne_true), hmeta]
    have hg : pyDictGet (PyVal.dict mkvs) "usage" (PyVal.dict [])
        = Except.ok ((dictLookup mkvs "usage").getD (PyVal.dict [])) := rfl
    rw [hg]
    by_cases h2 : truthy ((dictLookup mkvs "usage").getD (PyVal.dict [])) = true
    · simp [h2]
    · rw [Bool.not_eq_true] at h2
      simp [h2]
  · intro h1 h2
    unfold extractUsage
    rw [h1, h2]
    rfl

/-- Witness for `c8_usage_truthy_precedence`: a response with a truthy
top-level `usage` mapping returns it. -/
theorem c8_witness :
    extractUsage [("usage", PyVal.dict [("total_tokens", PyVal.int 3)])]
      = Except.ok (PyVal.dict [("total_tokens", PyVal.int 3)]) :=
  (c8_usage_truthy_precedence
      [("usage", PyVal.dict [("total_tokens", PyVal.int 3)])]).1
    (PyVal.dict [("total_tokens", PyVal.int 3)]) rfl rfl

end PromptCraft
